import Mathlib

/-!
Verification of the streaming message / consent protocol client of
pagi-twin-desktop (src/frontend_desktop/App.tsx).

The embedding models the single active conversation of the desktop app:
`AppState` holds the message list of the active chat together with the
mutable session refs of App.tsx (`streamingMessageIdRef`,
`streamingHasReceivedChunkRef`, `wsConsentGrantedRef`,
`pendingWsCommandRef`, `isTyping`).  Each WebSocket event handler and the
send path `handleSendMessage` is translated as a pure state transformer;
outbound transmissions (socket sends and HTTP calls) are returned as an
explicit list of `Outbound` events.  Timers are modelled by returning the
armed timer target and by an explicit `fallbackTimerFire` transformer for
the timer callback.  `Date.now()` is passed in as an explicit `now : Nat`.

Pieces of App.tsx that no claim touches (analytics, chat-history titles,
memory-store persistence, voice, notifications, panel visibility flags)
are omitted; long user-facing help strings inside `parseChatCommand` are
abbreviated since no claim depends on their content, while every branch
condition and every `commandToSend` string of the parser is kept verbatim.
-/

namespace PagiTwin

/-- One chat message of the active conversation (App.tsx `Message`).
The optional TS fields are `Option`s; an absent `isStreaming` field is
falsy in every use site, so it is modelled as `false`. -/
structure Message where
  id : String
  role : String
  content : String
  timestamp : Nat
  isStreaming : Bool
  memoryCommit : Option String
  agent : Option String
  mtype : Option String
deriving DecidableEq, Repr

/-- Outbound transmissions: socket sends (`sendSpeak` / `sendCommand` /
`sendSystem` of the websocketService module) and HTTP fallback calls
(`apiSpeak` / `apiCommand`).  Modelled from the spec: the websocketService
and phoenixService modules are not part of the excerpt; section 6 of the
spec gives the outbound wire shapes `speak`, `command`,
`system(action: grant|revoke)` and the two HTTP endpoints. -/
inductive SysAction where
  | grant
  | revoke
deriving DecidableEq, Repr

/-- Outbound traffic event: what left the client and over which transport. -/
inductive Outbound where
  | wsSpeak (text : String)
  | wsCommand (text : String)
  | wsSystem (action : SysAction)
  | httpCommand (text : String)
  | httpSpeak (text : String)
deriving DecidableEq, Repr

/-- The mutable client state read and written by the handlers of App.tsx:
the active conversation plus the streaming and consent session refs. -/
structure AppState where
  messages : List Message
  streamingMessageId : Option String
  hasReceivedChunk : Bool
  consentGranted : Bool
  pendingCommand : Option String
  isTyping : Bool
deriving DecidableEq, Repr

/-- Payload of a `speak_response_chunk` event. -/
structure ChunkEvent where
  error : Option String
  chunk : String
  done : Bool
  memoryCommit : Option String
deriving DecidableEq, Repr

/-- Payload of a legacy `speak_response` event. -/
structure SpeakResponseEvent where
  message : String
  memoryCommit : Option String
deriving DecidableEq, Repr

/-- Payload of a `system_response` event; `none` models a message whose
`consent_granted` field is not a boolean. -/
structure SystemResponseEvent where
  consent_granted : Option Bool
deriving DecidableEq, Repr

/-- JS `String.prototype.trim`, over the character list so that it is
kernel-computable. -/
def jsTrim (s : String) : String :=
  ⟨((s.toList.dropWhile Char.isWhitespace).reverse.dropWhile Char.isWhitespace).reverse⟩

/-- JS `String.prototype.toLowerCase`, over the character list. -/
def jsToLower (s : String) : String :=
  ⟨s.toList.map Char.toLower⟩

/-- JS `String.prototype.startsWith`, over the character lists. -/
def jsStartsWith (s p : String) : Bool :=
  p.toList.isPrefixOf s.toList

/-- JS truthiness of the optional `error` field (`if (response?.error)`):
present and non-empty. -/
def errTruthy (o : Option String) : Bool :=
  !(o.getD "" == "")

/-- Does the list contain a message with the given id
(`existing.some(m => m.id === targetId)`). -/
def hasId (l : List Message) (i : String) : Bool :=
  l.any (fun m => m.id == i)

/-- Handler of `speak_response_chunk` (App.tsx lines 1146-1260).
`now` stands for `Date.now()` at handling time. -/
def speakResponseChunk (st : AppState) (e : ChunkEvent) (now : Nat) : AppState :=
  let pendingId := st.streamingMessageId
  if errTruthy e.error then
    let targetId := pendingId.getD ("assistant-" ++ toString now)
    let existing := st.messages
    let hasTarget := hasId existing targetId
    let next :=
      if hasTarget then
        existing.map (fun m =>
          if m.id == targetId then
            { m with content := "Error: " ++ e.error.getD "", isStreaming := false,
                     memoryCommit := e.memoryCommit, agent := some "Orchestrator" }
          else m)
      else
        existing ++ [{ id := targetId, role := "assistant",
                       content := "Error: " ++ e.error.getD "", timestamp := now,
                       isStreaming := false, memoryCommit := e.memoryCommit,
                       agent := some "Orchestrator", mtype := none }]
    { st with messages := next, isTyping := false,
              streamingMessageId := none, hasReceivedChunk := false }
  else
    let chunk := e.chunk
    let done := e.done
    let targetId := pendingId.getD ("assistant-" ++ toString now)
    let hasChunk1 := if chunk == "" then st.hasReceivedChunk else true
    let existing := st.messages
    let hasTarget := hasId existing targetId
    let next :=
      if hasTarget then
        existing.map (fun m =>
          if m.id == targetId then
            { m with content := m.content ++ chunk, isStreaming := !done,
                     memoryCommit := e.memoryCommit, agent := some "Orchestrator" }
          else m)
      else
        existing ++ [{ id := targetId, role := "assistant", content := chunk,
                       timestamp := now, isStreaming := !done,
                       memoryCommit := e.memoryCommit,
                       agent := some "Orchestrator", mtype := none }]
    if done then
      { st with messages := next, isTyping := false,
                streamingMessageId := none, hasReceivedChunk := false }
    else
      { st with messages := next, streamingMessageId := some targetId,
                hasReceivedChunk := hasChunk1 }

/-- Handler of the legacy whole-text `speak_response` (App.tsx lines
1080-1143).  The TS guard `if (activeChatId && response.message)` makes an
empty (falsy) message a no-op. -/
def speakResponse (st : AppState) (e : SpeakResponseEvent) (now : Nat) : AppState :=
  if e.message == "" then st
  else
    match st.streamingMessageId with
    | some pendingId =>
      if st.hasReceivedChunk then st
      else
        { st with
          messages := st.messages.map (fun m =>
            if m.id == pendingId then
              { m with content := e.message, isStreaming := false,
                       agent := some "Orchestrator", memoryCommit := e.memoryCommit }
            else m),
          streamingMessageId := none, hasReceivedChunk := false, isTyping := false }
    | none =>
      let assistantMessage : Message :=
        { id := toString (now + 1), role := "assistant", content := e.message,
          timestamp := now, isStreaming := false, memoryCommit := e.memoryCommit,
          agent := some "Orchestrator", mtype := none }
      { st with messages := st.messages ++ [assistantMessage], isTyping := false }

/-- Handler of an `error`-typed socket message (App.tsx lines 1283-1297):
it appends a fresh assistant error message and touches neither the
existing messages nor the streaming refs. -/
def wsErrorEvent (st : AppState) (msg : Option String) (now : Nat) : AppState :=
  let text :=
    match msg with
    | some s => if s == "" then "Unknown error" else s
    | none => "Unknown error"
  let errorMessage : Message :=
    { id := toString (now + 1), role := "assistant", content := "Error: " ++ text,
      timestamp := now, isStreaming := false, memoryCommit := none, agent := none,
      mtype := none }
  { st with messages := st.messages ++ [errorMessage], isTyping := false }

/-- Firing of the streaming fallback timer armed in `handleSendMessage`
(App.tsx lines 1642-1654).  The closure captured `pendingId`. -/
def fallbackTimerFire (st : AppState) (pendingId : String) : AppState :=
  let stillPending := st.streamingMessageId == some pendingId
  let hasChunks := st.hasReceivedChunk
  if stillPending && !hasChunks then
    { st with messages := st.messages.filter (fun m => !(m.id == pendingId)),
              streamingMessageId := none }
  else st

/-- Connectivity handler (App.tsx lines 1053-1063): on disconnect the
consent flag is reset and the pending privileged command dropped. -/
def onConnection (st : AppState) (connected : Bool) : AppState :=
  if !connected then { st with consentGranted := false, pendingCommand := none }
  else st

/-- Handler of `system_response` (App.tsx lines 1066-1077): record the
consent flag; when it turns true with a queued command, transmit exactly
that command over the socket and clear the slot. -/
def systemResponse (st : AppState) (e : SystemResponseEvent) :
    AppState × List Outbound :=
  match e.consent_granted with
  | none => (st, [])
  | some b =>
    let st1 := { st with consentGranted := b }
    if b then
      match st1.pendingCommand with
      | some queued => ({ st1 with pendingCommand := none }, [Outbound.wsCommand queued])
      | none => (st1, [])
    else (st1, [])

/-- Fold a list of `speak_response_chunk` events through the handler. -/
def runChunks (st : AppState) (events : List ChunkEvent) (now : Nat) : AppState :=
  events.foldl (fun s e => speakResponseChunk s e now) st

/-- A text-carrying, possibly terminal chunk event. -/
def mkChunk (t : String) (d : Bool) : ChunkEvent :=
  { error := none, chunk := t, done := d, memoryCommit := none }

/-- The non-terminal chunk events for a list of texts. -/
def nonTerminalChunks (ts : List String) : List ChunkEvent :=
  ts.map (fun t => mkChunk t false)

/-- The empty streaming placeholder inserted by `handleSendMessage`
(App.tsx lines 1619-1627). -/
def placeholderMsg (pid : String) (now : Nat) : Message :=
  { id := pid, role := "assistant", content := "", timestamp := now,
    isStreaming := true, memoryCommit := none, agent := some "Orchestrator",
    mtype := none }

/-- Result of the local chat-command parser (App.tsx `ChatCommandResult`,
lines 234-241). -/
inductive ChatCommandResult where
  | handled (commandToSend : Option String) (systemActionToSend : Option SysAction)
      (localAssistantMessage : Option String)
  | passThrough
deriving DecidableEq, Repr

/-- Accumulating worker for `splitWs`: `cur` is the current word reversed. -/
def splitWsAux : List Char → List Char → List String
  | [], cur => if cur.isEmpty then [] else [⟨cur.reverse⟩]
  | c :: rest, cur =>
    if c.isWhitespace then
      if cur.isEmpty then splitWsAux rest []
      else (⟨cur.reverse⟩ : String) :: splitWsAux rest []
    else splitWsAux rest (c :: cur)

/-- JS `split(/\s+/)` on an already trimmed string: the maximal
whitespace-free runs, in order.  This matches the regex split because the
input never starts with whitespace here (it was trimmed first). -/
def splitWs (s : String) : List String :=
  splitWsAux s.toList []

/-- Local chat-command parser `parseChatCommand` (App.tsx lines 243-846).
Every branch condition and every `commandToSend` string is verbatim from
the source.  Long user-facing display strings (help pages, the status
panel) are abbreviated, and pure UI side effects (panel visibility,
voice/theme toggles, notifications) are dropped: no claim depends on
either; the returned classification is what the send path consumes. -/
def parseChatCommand (raw : String) : ChatCommandResult :=
  let input := jsTrim raw
  let lower := jsToLower input
  if lower == "show browser" then
    ChatCommandResult.handled none none (some "Browser panel shown.")
  else if lower == "hide browser" then
    ChatCommandResult.handled none none (some "Browser panel hidden.")
  else if lower == "help" || lower == "?" || lower == "commands" then
    ChatCommandResult.handled none none (some "Sola AGI - Available Commands (display copy abbreviated)")
  else if lower == "help voice" then
    ChatCommandResult.handled none none (some "Voice Interaction Help (display copy abbreviated)")
  else if lower == "help browser" then
    ChatCommandResult.handled none none (some "Browser Control Help (display copy abbreviated)")
  else if lower == "help dreams" then
    ChatCommandResult.handled none none (some "Dreams Panel Help (display copy abbreviated)")
  else if lower == "help memory" then
    ChatCommandResult.handled none none (some "Memory System Help (display copy abbreviated)")
  else if lower == "help ecosystem" then
    ChatCommandResult.handled none none (some "Ecosystem Management Help (display copy abbreviated)")
  else if lower == "help agents" then
    ChatCommandResult.handled none none (some "Agent Spawning Help (display copy abbreviated)")
  else if lower == "help proactive" then
    ChatCommandResult.handled none none (some "Proactive Communication Help (display copy abbreviated)")
  else if lower == "notify test" || lower == "test notification" then
    ChatCommandResult.handled none none (some "Test notification sent! Check your system tray.")
  else if lower == "proactive on" || lower == "proactive enable" then
    ChatCommandResult.handled none none (some "Note: Proactive communication is configured at startup via .env (PROACTIVE_ENABLED=true). To enable, add to .env and restart backend.")
  else if lower == "proactive off" || lower == "proactive disable" then
    ChatCommandResult.handled none none (some "Note: Proactive communication is configured at startup via .env. To disable, remove PROACTIVE_ENABLED or set to false in .env and restart backend.")
  else if lower == "proactive status" then
    ChatCommandResult.handled (some "proactive status") none none
  else if jsStartsWith lower "proactive interval " then
    let interval := jsTrim (input.drop 19)
    ChatCommandResult.handled none none (some ("To set proactive interval to " ++ interval ++ " seconds, add PROACTIVE_INTERVAL_SECS=" ++ interval ++ " to .env and restart backend."))
  else if lower == "show dreams" || lower == "dreams" || lower == "list dreams" then
    ChatCommandResult.handled (some "brain dreams list") none none
  else if lower == "hide dreams" then
    ChatCommandResult.handled none none (some "Dreams panel hidden.")
  else if lower == "lucid" || lower == "lucid dream" then
    ChatCommandResult.handled (some "brain dreams lucid") none none
  else if lower == "dream with me" || lower == "dream with dad" || lower == "shared dream" then
    ChatCommandResult.handled (some "brain dreams shared") none none
  else if jsStartsWith lower "heal " then
    let emotion := jsTrim (input.drop 5)
    ChatCommandResult.handled (some ("brain dreams heal " ++ emotion)) none none
  else if jsStartsWith lower "replay dream " then
    let dreamId := jsTrim (input.drop 13)
    ChatCommandResult.handled (some ("brain dreams replay " ++ dreamId)) none none
  else if lower == "voice on" || lower == "enable voice" || lower == "voice enable" then
    ChatCommandResult.handled none none (some "Voice output enabled. I will speak my responses.")
  else if lower == "voice off" || lower == "disable voice" || lower == "voice disable" then
    ChatCommandResult.handled none none (some "Voice output disabled.")
  else if lower == "listen" || lower == "start listening" then
    ChatCommandResult.handled none none (some "Listening... Speak now.")
  else if jsStartsWith lower "speak " then
    let textToSpeak := jsTrim (input.drop 6)
    ChatCommandResult.handled none none (some ("Speaking: \"" ++ textToSpeak ++ "\""))
  else if lower == "theme dark" || lower == "dark theme" || lower == "dark mode" then
    ChatCommandResult.handled none none (some "Theme set to dark.")
  else if lower == "theme light" || lower == "light theme" || lower == "light mode" then
    ChatCommandResult.handled none none (some "Theme set to light.")
  else if lower == "reset voice" || lower == "voice reset" then
    ChatCommandResult.handled none none (some "Voice settings reset to defaults.")
  else if lower == "status all" || lower == "status" || lower == "show status" then
    ChatCommandResult.handled none none (some "System Status (display copy abbreviated)")
  else if lower == "system grant" || lower == "grant" then
    ChatCommandResult.handled none (some SysAction.grant) (some "WebSocket consent granted for this connection.")
  else if lower == "system revoke" || lower == "revoke" then
    ChatCommandResult.handled none (some SysAction.revoke) (some "WebSocket consent revoked for this connection.")
  else if lower == "use chrome for browsing" then
    ChatCommandResult.handled (some "system browser use chrome port=9222") none none
  else if lower == "use firefox for browsing" then
    ChatCommandResult.handled (some "system browser use firefox port=9222") none none
  else if jsStartsWith lower "system browser " then
    let parts := splitWs input
    let sub := jsToLower (parts.getD 2 "")
    if sub == "status" then
      ChatCommandResult.handled (some "system browser status") none none
    else if sub == "navigate" then
      let url := jsTrim (String.intercalate " " (parts.drop 3))
      if url == "" then
        ChatCommandResult.handled none none (some "Usage: system browser navigate <url>")
      else
        ChatCommandResult.handled (some ("system browser navigate " ++ url)) none none
    else if sub == "login" then
      let url := parts.getD 3 ""
      let user := parts.getD 4 ""
      let pass := parts.getD 5 ""
      if url == "" || user == "" || pass == "" then
        ChatCommandResult.handled none none (some "Usage: system browser login <url> <username> <password>")
      else
        ChatCommandResult.handled (some ("system browser login " ++ url ++ " " ++ user ++ " " ++ pass)) none none
    else if sub == "scrape" then
      let url := parts.getD 3 ""
      let selector := jsTrim (String.intercalate " " (parts.drop 4))
      if url == "" || selector == "" then
        ChatCommandResult.handled none none (some "Usage: system browser scrape <url> <selector>")
      else
        ChatCommandResult.handled (some ("system browser scrape " ++ url ++ " " ++ selector)) none none
    else if sub == "screenshot" then
      let selector := jsTrim (String.intercalate " " (parts.drop 3))
      if selector == "" then
        ChatCommandResult.handled (some "system browser screenshot") none none
      else
        ChatCommandResult.handled (some ("system browser screenshot " ++ selector)) none none
    else if sub == "click" then
      let selector := jsTrim (String.intercalate " " (parts.drop 3))
      if selector == "" then
        ChatCommandResult.handled none none (some "Usage: system browser click <selector>")
      else
        ChatCommandResult.handled (some ("system browser click " ++ selector)) none none
    else if sub == "type" then
      let selector := parts.getD 3 ""
      let text := jsTrim (String.intercalate " " (parts.drop 4))
      if selector == "" || text == "" then
        ChatCommandResult.handled none none (some "Usage: system browser type <selector> <text>")
      else
        ChatCommandResult.handled (some ("system browser type " ++ selector ++ " " ++ text)) none none
    else if sub == "scroll" then
      let dx := parts.getD 3 ""
      let dy := parts.getD 4 ""
      if dx == "" || dy == "" then
        ChatCommandResult.handled none none (some "Usage: system browser scroll <dx> <dy>")
      else
        ChatCommandResult.handled (some ("system browser scroll " ++ dx ++ " " ++ dy)) none none
    else if sub == "keypress" then
      let key := jsTrim (String.intercalate " " (parts.drop 3))
      if key == "" then
        ChatCommandResult.handled none none (some "Usage: system browser keypress <key>")
      else
        ChatCommandResult.handled (some ("system browser keypress " ++ key)) none none
    else if sub == "wait" then
      let selector := parts.getD 3 ""
      let timeout := parts.getD 4 ""
      if selector == "" then
        ChatCommandResult.handled none none (some "Usage: system browser wait <selector> [timeout_ms]")
      else if timeout == "" then
        ChatCommandResult.handled (some ("system browser wait " ++ selector)) none none
      else
        ChatCommandResult.handled (some ("system browser wait " ++ selector ++ " " ++ timeout)) none none
    else
      ChatCommandResult.handled (some input) none none
  else
    ChatCommandResult.passThrough

/-- Fast-path prefix test of `handleSendMessage` (App.tsx lines 1514-1521),
applied to the trimmed, lowercased outgoing text. -/
def isFastPathCommand (messageLower : String) : Bool :=
  jsStartsWith messageLower "system " || jsStartsWith messageLower "code " ||
  jsStartsWith messageLower "exec " || jsStartsWith messageLower "execute " ||
  jsStartsWith messageLower "skills " || jsStartsWith messageLower "google " ||
  jsStartsWith messageLower "ecosystem "

/-- Does `sub` occur as a contiguous run inside `l`. -/
def containsRun (sub : List Char) : List Char → Bool
  | [] => sub.isEmpty
  | c :: rest => sub.isPrefixOf (c :: rest) || containsRun sub rest

/-- JS `String.prototype.includes`. -/
def strIncludes (s sub : String) : Bool :=
  containsRun sub.toList s.toList

/-- The text that `handleSendMessage` actually dispatches for a raw input:
the parser override when one exists, else the raw input
(`const messageToSend = commandOverride ?? inputValue`). -/
def postParseText (input : String) : String :=
  match parseChatCommand input with
  | ChatCommandResult.handled c _ _ => c.getD input
  | ChatCommandResult.passThrough => input

/-- Synchronous outcome of one `handleSendMessage` call: the new state,
the transmissions that left the client, and the streaming fallback timer
target armed for this turn (if any). -/
structure SendOutcome where
  state : AppState
  outbound : List Outbound
  timerTarget : Option String
deriving DecidableEq, Repr

/-- Send path `handleSendMessage` (App.tsx lines 1502-1690), as a pure
function of the client state, the connectivity flag, the socket-send
success flag `sendOk` (return value of `sendCommand` / `sendSpeak`), the
raw input line and the clock.  The active conversation is always present
(the embedding models exactly one conversation).  A failed socket send
transmits nothing and falls back to the HTTP endpoint, so `outbound`
then records only the HTTP call.  The asynchronous HTTP response
continuation and the chat-title update are outside the model. -/
def handleSendMessage (st : AppState) (connected : Bool) (sendOk : Bool)
    (input : String) (now : Nat) : SendOutcome :=
  if jsTrim input == "" || st.isTyping then
    { state := st, outbound := [], timerTarget := none }
  else
    let parsed := parseChatCommand input
    let commandOverride : Option String :=
      match parsed with
      | ChatCommandResult.handled c _ _ => c
      | ChatCommandResult.passThrough => none
    let systemActionToSend : Option SysAction :=
      match parsed with
      | ChatCommandResult.handled _ a _ => a
      | ChatCommandResult.passThrough => none
    let localAssistantMessage : Option String :=
      match parsed with
      | ChatCommandResult.handled _ _ l => l
      | ChatCommandResult.passThrough => none
    let isHandled : Bool :=
      match parsed with
      | ChatCommandResult.handled _ _ _ => true
      | ChatCommandResult.passThrough => false
    let messageToSend := commandOverride.getD input
    let messageLower := jsToLower (jsTrim messageToSend)
    let isFastPath := isFastPathCommand messageLower
    let isCommand :=
      commandOverride.isSome || isFastPath || jsStartsWith messageToSend "/" ||
      strIncludes messageLower " run" || strIncludes messageLower " execute" ||
      strIncludes messageLower " schedule"
    let userMessage : Message :=
      { id := toString now, role := "user", content := input, timestamp := now,
        isStreaming := false, memoryCommit := none, agent := none,
        mtype := some (if isCommand then "command" else "speak") }
    let messages1 := st.messages ++ [userMessage]
    let messageContent := messageToSend
    let messages2 :=
      match localAssistantMessage with
      | some t =>
        let localMsg : Message :=
          { id := toString (now + 1), role := "assistant", content := t,
            timestamp := now, isStreaming := false, memoryCommit := none,
            agent := some "Orchestrator", mtype := none }
        messages1 ++ [localMsg]
      | none => messages1
    if isHandled && commandOverride.isNone then
      -- Pure UI command (no backend invocation); an attached system action
      -- still goes over the socket when connected.
      { state := { st with messages := messages2, isTyping := false },
        outbound :=
          match systemActionToSend with
          | some a => if connected then [Outbound.wsSystem a] else []
          | none => [],
        timerTarget := none }
    else if isFastPath then
      -- Fast-path backend commands are routed over HTTP /api/command.
      { state := { st with messages := messages2, isTyping := true },
        outbound := [Outbound.httpCommand messageContent],
        timerTarget := none }
    else if connected then
      let pendingId := "assistant-stream-" ++ toString now
      let placeholder : Message := placeholderMsg pendingId now
      let messages3 := if isCommand then messages2 else messages2 ++ [placeholder]
      let ref3 := if isCommand then st.streamingMessageId else some pendingId
      let hasChunk3 := if isCommand then st.hasReceivedChunk else false
      let timer3 : Option String := if isCommand then none else some pendingId
      if isCommand && jsStartsWith (jsToLower (jsTrim messageContent)) "system " &&
          !st.consentGranted then
        -- Consent gate: queue the command and request a grant instead.
        let gated : AppState :=
          { st with messages := messages3, streamingMessageId := ref3,
                    hasReceivedChunk := hasChunk3, isTyping := true,
                    pendingCommand := some messageContent }
        { state := gated,
          outbound := [Outbound.wsSystem SysAction.grant],
          timerTarget := timer3 }
      else
        let req := if isCommand then Outbound.wsCommand messageContent
                   else Outbound.wsSpeak messageContent
        let fallback := if isCommand then Outbound.httpCommand messageContent
                        else Outbound.httpSpeak messageContent
        let sentState : AppState :=
          { st with messages := messages3, streamingMessageId := ref3,
                    hasReceivedChunk := hasChunk3, isTyping := true }
        { state := sentState,
          outbound := if sendOk then [req] else [fallback],
          timerTarget := timer3 }
    else
      { state := { st with messages := messages2, isTyping := true },
        outbound := [if isCommand then Outbound.httpCommand messageContent
                     else Outbound.httpSpeak messageContent],
        timerTarget := none }

/-! ## Helper lemmas about message lists -/

theorem hasId_cons (a : Message) (t : List Message) (i : String) :
    hasId (a :: t) i = ((a.id == i) || hasId t i) := by
  simp [hasId]

theorem hasId_append_self (pre : List Message) (m : Message) :
    hasId (pre ++ [m]) m.id = true := by
  simp [hasId]

/-- Updating by id in `pre ++ [m]` touches exactly `m` when `pre` holds no
message with the id of `m`. -/
theorem map_update_append (pre : List Message) (m : Message) (i : String)
    (f : Message → Message) (hm : m.id = i) (h : hasId pre i = false) :
    ((pre ++ [m]).map fun x => if x.id == i then f x else x) = pre ++ [f m] := by
  induction pre with
  | nil => simp [hm]
  | cons a t ih =>
    rw [hasId_cons] at h
    rcases Bool.or_eq_false_iff.mp h with ⟨h1, h2⟩
    simp only [List.cons_append, List.map_cons, h1, Bool.false_eq_true, if_false]
    rw [ih h2]

/-- Filtering the id of `m` out of `pre ++ [m]` removes exactly `m` when
`pre` holds no message with that id. -/
theorem filter_out_append (pre : List Message) (m : Message)
    (h : hasId pre m.id = false) :
    ((pre ++ [m]).filter fun x => !(x.id == m.id)) = pre := by
  induction pre with
  | nil => simp
  | cons a t ih =>
    rw [hasId_cons] at h
    rcases Bool.or_eq_false_iff.mp h with ⟨h1, h2⟩
    simp only [List.cons_append, List.filter_cons, h1, Bool.not_false, if_pos]
    rw [ih h2]

/-- Updating by id leaves a list unchanged when no message has that id. -/
theorem map_id_of_fresh (pre : List Message) (i : String) (f : Message → Message)
    (h : hasId pre i = false) :
    (pre.map fun x => if x.id = i then f x else x) = pre := by
  induction pre with
  | nil => rfl
  | cons a t ih =>
    rw [hasId_cons] at h
    rcases Bool.or_eq_false_iff.mp h with ⟨h1, h2⟩
    have ha : ¬(a.id = i) := by simpa using h1
    simp [ha, ih h2]

/-- The assistant message shape produced and maintained by the streaming
chunk handler: role assistant, Orchestrator agent, no memory commit. -/
def streamMsg (pid : String) (now : Nat) (content : String) (streaming : Bool) : Message :=
  { id := pid, role := "assistant", content := content, timestamp := now,
    isStreaming := streaming, memoryCommit := none, agent := some "Orchestrator",
    mtype := none }

theorem placeholderMsg_eq (pid : String) (now : Nat) :
    placeholderMsg pid now = streamMsg pid now "" true := rfl

/-- One non-terminal, non-error chunk appends its text to the registered
target at the end of the conversation and records text arrival. -/
theorem speakResponseChunk_step (pre : List Message) (pid : String)
    (now nowE : Nat) (c t : String) (hc cg ty : Bool) (pc : Option String)
    (hfresh : hasId pre pid = false) :
    speakResponseChunk
      { messages := pre ++ [streamMsg pid now c true], streamingMessageId := some pid,
        hasReceivedChunk := hc, consentGranted := cg, pendingCommand := pc,
        isTyping := ty }
      (mkChunk t false) nowE
    = { messages := pre ++ [streamMsg pid now (c ++ t) true],
        streamingMessageId := some pid,
        hasReceivedChunk := if t == "" then hc else true,
        consentGranted := cg, pendingCommand := pc, isTyping := ty } := by
  have hhas : hasId (pre ++ [streamMsg pid now c true]) pid = true := by
    simpa [streamMsg] using hasId_append_self pre (streamMsg pid now c true)
  simp only [speakResponseChunk, mkChunk, errTruthy, Option.getD_none,
    beq_self_eq_true, Bool.not_true, Option.getD_some, Bool.false_eq_true,
    if_false, hhas, if_true]
  simp [streamMsg]
  exact map_id_of_fresh pre pid _ hfresh

/-- The terminal chunk appends its trailing text, clears the streaming
flag of the target, and resets the correlation refs. -/
theorem speakResponseChunk_terminal (pre : List Message) (pid : String)
    (now nowE : Nat) (c t : String) (hc cg ty : Bool) (pc : Option String)
    (hfresh : hasId pre pid = false) :
    speakResponseChunk
      { messages := pre ++ [streamMsg pid now c true], streamingMessageId := some pid,
        hasReceivedChunk := hc, consentGranted := cg, pendingCommand := pc,
        isTyping := ty }
      (mkChunk t true) nowE
    = { messages := pre ++ [streamMsg pid now (c ++ t) false],
        streamingMessageId := none, hasReceivedChunk := false,
        consentGranted := cg, pendingCommand := pc, isTyping := false } := by
  have hhas : hasId (pre ++ [streamMsg pid now c true]) pid = true := by
    simpa [streamMsg] using hasId_append_self pre (streamMsg pid now c true)
  simp only [speakResponseChunk, mkChunk, errTruthy, Option.getD_none,
    beq_self_eq_true, Bool.not_true, Option.getD_some, Bool.false_eq_true,
    if_false, hhas, if_true]
  simp [streamMsg]
  exact map_id_of_fresh pre pid _ hfresh

theorem runChunks_append (st : AppState) (es1 es2 : List ChunkEvent) (nowE : Nat) :
    runChunks st (es1 ++ es2) nowE = runChunks (runChunks st es1 nowE) es2 nowE := by
  simp [runChunks, List.foldl_append]

/-- Folding the non-terminal chunk events over a state whose streaming
target is the last message appends the texts in order to the target
content, keeps the target registered, and records whether any non-empty
text arrived. -/
theorem runChunks_nonterminal (pre : List Message) (pid : String)
    (now nowE : Nat) (ts : List String) (c : String) (hc cg ty : Bool)
    (pc : Option String) (hfresh : hasId pre pid = false) :
    runChunks
      { messages := pre ++ [streamMsg pid now c true], streamingMessageId := some pid,
        hasReceivedChunk := hc, consentGranted := cg, pendingCommand := pc,
        isTyping := ty }
      (nonTerminalChunks ts) nowE
    = { messages := pre ++ [streamMsg pid now (ts.foldl (fun r s => r ++ s) c) true],
        streamingMessageId := some pid,
        hasReceivedChunk := ts.foldl (fun b t => if t == "" then b else true) hc,
        consentGranted := cg, pendingCommand := pc, isTyping := ty } := by
  induction ts generalizing c hc with
  | nil => simp [runChunks, nonTerminalChunks]
  | cons t rest ih =>
    have hstep := speakResponseChunk_step pre pid now nowE c t hc cg ty pc hfresh
    have htail := ih (c ++ t) (if t == "" then hc else true)
    simp only [nonTerminalChunks, List.map_cons, runChunks, List.foldl_cons] at htail ⊢
    rw [hstep]
    exact htail

/-! ## Claim theorems -/

/-- C1: delivering a sequence of non-terminal chunk events followed by one
terminal chunk (possibly with trailing text) to an active streaming
session finalizes the target Message with content equal to the
concatenation of all chunk texts in arrival order (`String.join ts ++ tLast`),
and the streaming flag of the Message is false afterwards. -/
theorem chunk_stream_concatenation (pre : List Message) (pid : String)
    (now nowE : Nat) (ts : List String) (tLast : String) (cg ty : Bool)
    (pc : Option String) (hfresh : hasId pre pid = false) :
    runChunks
      { messages := pre ++ [placeholderMsg pid now],
        streamingMessageId := some pid, hasReceivedChunk := false,
        consentGranted := cg, pendingCommand := pc, isTyping := ty }
      (nonTerminalChunks ts ++ [mkChunk tLast true]) nowE
    = { messages := pre ++ [streamMsg pid now (String.join ts ++ tLast) false],
        streamingMessageId := none, hasReceivedChunk := false,
        consentGranted := cg, pendingCommand := pc, isTyping := false } := by
  rw [runChunks_append, placeholderMsg_eq,
    runChunks_nonterminal pre pid now nowE ts "" false cg ty pc hfresh]
  have hjoin : ts.foldl (fun r s => r ++ s) "" = String.join ts := rfl
  rw [hjoin]
  have hterm := speakResponseChunk_terminal pre pid now nowE (String.join ts) tLast
    (ts.foldl (fun b t => if t == "" then b else true) false) cg ty pc hfresh
  simpa [runChunks] using hterm

/-- C1 witness: the spec scenario `"Hi "`, `"there!"`, then an empty
terminal chunk, finalizes the placeholder to `"Hi there!"`. -/
theorem chunk_stream_concatenation_witness :
    hasId [] "assistant-stream-0" = false
    ∧ runChunks
        { messages := [placeholderMsg "assistant-stream-0" 0],
          streamingMessageId := some "assistant-stream-0", hasReceivedChunk := false,
          consentGranted := false, pendingCommand := none, isTyping := true }
        (nonTerminalChunks ["Hi ", "there!"] ++ [mkChunk "" true]) 5
      = { messages := [streamMsg "assistant-stream-0" 0 "Hi there!" false],
          streamingMessageId := none, hasReceivedChunk := false,
          consentGranted := false, pendingCommand := none, isTyping := false } := by
  refine ⟨by decide, ?_⟩
  have h := chunk_stream_concatenation [] "assistant-stream-0" 0 5 ["Hi ", "there!"] ""
    false true none (by decide)
  simpa using h.trans (by decide)

/-- C7: when the fallback timer fires while the placeholder is still the
registered streaming target and no chunk has been received, the
placeholder is removed, so the conversation is exactly what it was before
the assistant turn started, and the streaming target is cleared. -/
theorem fallback_timer_removes_placeholder (pre : List Message) (m : Message)
    (cg ty : Bool) (pc : Option String)
    (hfresh : hasId pre m.id = false) :
    fallbackTimerFire
      { messages := pre ++ [m], streamingMessageId := some m.id,
        hasReceivedChunk := false, consentGranted := cg, pendingCommand := pc,
        isTyping := ty }
      m.id
    = { messages := pre, streamingMessageId := none, hasReceivedChunk := false,
        consentGranted := cg, pendingCommand := pc, isTyping := ty } := by
  simp only [fallbackTimerFire, beq_self_eq_true, Bool.not_false, Bool.and_self,
    if_true]
  rw [filter_out_append pre m hfresh]

/-- C7 witness: a pending empty placeholder with zero chunks is removed by
the timer, restoring the pre-turn message list. -/
theorem fallback_timer_removes_placeholder_witness :
    hasId [] (placeholderMsg "assistant-stream-3" 3).id = false
    ∧ fallbackTimerFire
        { messages := [placeholderMsg "assistant-stream-3" 3],
          streamingMessageId := some (placeholderMsg "assistant-stream-3" 3).id,
          hasReceivedChunk := false, consentGranted := false,
          pendingCommand := none, isTyping := true }
        (placeholderMsg "assistant-stream-3" 3).id
      = { messages := [], streamingMessageId := none, hasReceivedChunk := false,
          consentGranted := false, pendingCommand := none, isTyping := true } := by
  exact ⟨by decide,
    fallback_timer_removes_placeholder [] (placeholderMsg "assistant-stream-3" 3)
      false true none (by decide)⟩

/-- C8: the connectivity handler with `connected=false` resets the consent
flag and clears the pending privileged command; hence after a
disconnect-reconnect cycle consent is false, the pending slot is empty,
and no `system_response` event can release a previously queued command on
the new connection. -/
theorem disconnect_resets_consent (st : AppState) (e : SystemResponseEvent) :
    (onConnection st false).consentGranted = false
    ∧ (onConnection st false).pendingCommand = none
    ∧ (onConnection (onConnection st false) true).consentGranted = false
    ∧ (onConnection (onConnection st false) true).pendingCommand = none
    ∧ (systemResponse (onConnection (onConnection st false) true) e).2 = [] := by
  refine ⟨rfl, rfl, rfl, rfl, ?_⟩
  rcases e with ⟨cg⟩
  rcases cg with _ | b
  · rfl
  · cases b <;> rfl

/-- The all-empty initial client state. -/
def initState : AppState :=
  { messages := [], streamingMessageId := none, hasReceivedChunk := false,
    consentGranted := false, pendingCommand := none, isTyping := false }

/-- C5 counterexample: a turn that streamed a chunk and was finalized by
the terminal chunk does not ignore a later compatibility `speak_response`
for the same turn: the correlation refs were cleared on finalization, so
the whole-response handler appends a duplicate assistant message, growing
the conversation from 1 to 2 messages instead of leaving it unchanged. -/
theorem speak_response_after_final_duplicates :
    (runChunks
        { messages := [placeholderMsg "assistant-stream-0" 0],
          streamingMessageId := some "assistant-stream-0", hasReceivedChunk := false,
          consentGranted := false, pendingCommand := none, isTyping := true }
        [mkChunk "Hi" false, mkChunk "" true] 5).messages.length = 1
    ∧ (speakResponse
        (runChunks
          { messages := [placeholderMsg "assistant-stream-0" 0],
            streamingMessageId := some "assistant-stream-0", hasReceivedChunk := false,
            consentGranted := false, pendingCommand := none, isTyping := true }
          [mkChunk "Hi" false, mkChunk "" true] 5)
        { message := "Hi", memoryCommit := none } 7).messages.length = 2 := by
  decide

/-- C5 (amended): while the streaming session is still active (a pending
target id is registered) and at least one chunk has been received, a
legacy `speak_response` is ignored: the state, hence the conversation, is
unchanged.  After the terminal chunk clears the correlation refs, a
whole-response is appended as a fresh assistant message instead. -/
theorem speak_response_ignored_while_pending (st : AppState)
    (e : SpeakResponseEvent) (nowE : Nat)
    (hpending : st.streamingMessageId.isSome = true)
    (hchunks : st.hasReceivedChunk = true) :
    speakResponse st e nowE = st := by
  rcases hsome : st.streamingMessageId with _ | pid
  · rw [hsome] at hpending
    simp at hpending
  · simp [speakResponse, hsome, hchunks]

/-- C5 amended witness: a pending stream that already received `"Hi"`
ignores the compatibility whole-response. -/
theorem speak_response_ignored_while_pending_witness :
    (({ messages := [streamMsg "assistant-stream-0" 0 "Hi" true],
        streamingMessageId := some "assistant-stream-0", hasReceivedChunk := true,
        consentGranted := false, pendingCommand := none,
        isTyping := true } : AppState).streamingMessageId.isSome = true)
    ∧ speakResponse
        { messages := [streamMsg "assistant-stream-0" 0 "Hi" true],
          streamingMessageId := some "assistant-stream-0", hasReceivedChunk := true,
          consentGranted := false, pendingCommand := none, isTyping := true }
        { message := "Hi", memoryCommit := none } 7
      = { messages := [streamMsg "assistant-stream-0" 0 "Hi" true],
          streamingMessageId := some "assistant-stream-0", hasReceivedChunk := true,
          consentGranted := false, pendingCommand := none, isTyping := true } := by
  exact ⟨by decide,
    speak_response_ignored_while_pending
      { messages := [streamMsg "assistant-stream-0" 0 "Hi" true],
        streamingMessageId := some "assistant-stream-0", hasReceivedChunk := true,
        consentGranted := false, pendingCommand := none, isTyping := true }
      { message := "Hi", memoryCommit := none } 7 (by decide) (by decide)⟩

/-- C6: if the placeholder is still the registered streaming target, zero
chunks have been received, and a legacy whole-text response arrives before
the fallback timer fires, the placeholder is hydrated in one step (same
Message id, streaming flag cleared), and a later firing of the timer armed
for that placeholder is a no-op on the state. -/
theorem legacy_hydration_then_timer_noop (pre : List Message) (m : Message)
    (msg : String) (mc : Option String) (nowE : Nat) (cg ty : Bool)
    (pc : Option String) (hfresh : hasId pre m.id = false)
    (hmsg : (msg == "") = false) :
    speakResponse
      { messages := pre ++ [m], streamingMessageId := some m.id,
        hasReceivedChunk := false, consentGranted := cg, pendingCommand := pc,
        isTyping := ty }
      { message := msg, memoryCommit := mc } nowE
    = { messages := pre ++ [{ m with content := msg, isStreaming := false, agent := some "Orchestrator", memoryCommit := mc }],
        streamingMessageId := none, hasReceivedChunk := false,
        consentGranted := cg, pendingCommand := pc, isTyping := false }
    ∧ fallbackTimerFire
        { messages := pre ++ [{ m with content := msg, isStreaming := false, agent := some "Orchestrator", memoryCommit := mc }],
          streamingMessageId := none, hasReceivedChunk := false,
          consentGranted := cg, pendingCommand := pc, isTyping := false }
        m.id
      = { messages := pre ++ [{ m with content := msg, isStreaming := false, agent := some "Orchestrator", memoryCommit := mc }],
          streamingMessageId := none, hasReceivedChunk := false,
          consentGranted := cg, pendingCommand := pc, isTyping := false } := by
  constructor
  · simp only [speakResponse, hmsg, Bool.false_eq_true, if_false]
    simp
    exact map_id_of_fresh pre m.id _ hfresh
  · simp [fallbackTimerFire]

/-- C6 witness: an empty pending placeholder hydrated by the legacy
response `"full text"`, after which the timer firing changes nothing. -/
theorem legacy_hydration_then_timer_noop_witness :
    hasId [] (placeholderMsg "assistant-stream-0" 0).id = false
    ∧ (("full text" == "") = false)
    ∧ (speakResponse
        { messages := [placeholderMsg "assistant-stream-0" 0],
          streamingMessageId := some (placeholderMsg "assistant-stream-0" 0).id,
          hasReceivedChunk := false, consentGranted := false, pendingCommand := none,
          isTyping := true }
        { message := "full text", memoryCommit := none } 7
      = { messages := [{ placeholderMsg "assistant-stream-0" 0 with content := "full text", isStreaming := false, agent := some "Orchestrator", memoryCommit := none }],
          streamingMessageId := none, hasReceivedChunk := false,
          consentGranted := false, pendingCommand := none, isTyping := false }
    ∧ fallbackTimerFire
        { messages := [{ placeholderMsg "assistant-stream-0" 0 with content := "full text", isStreaming := false, agent := some "Orchestrator", memoryCommit := none }],
          streamingMessageId := none, hasReceivedChunk := false,
          consentGranted := false, pendingCommand := none, isTyping := false }
        (placeholderMsg "assistant-stream-0" 0).id
      = { messages := [{ placeholderMsg "assistant-stream-0" 0 with content := "full text", isStreaming := false, agent := some "Orchestrator", memoryCommit := none }],
          streamingMessageId := none, hasReceivedChunk := false,
          consentGranted := false, pendingCommand := none, isTyping := false }) := by
  exact ⟨by decide, by decide,
    legacy_hydration_then_timer_noop [] (placeholderMsg "assistant-stream-0" 0)
      "full text" none 7 false true none (by decide) (by decide)⟩

/-- C9 counterexample: an `error`-typed socket message arriving while a
streaming placeholder is active does not replace the placeholder: the
placeholder stays in the list with its streaming flag still set, and a
separate error message is appended after it. -/
theorem error_event_leaves_placeholder_streaming :
    (wsErrorEvent
      { messages := [placeholderMsg "assistant-stream-0" 0],
        streamingMessageId := some "assistant-stream-0", hasReceivedChunk := false,
        consentGranted := false, pendingCommand := none, isTyping := true }
      (some "boom") 9).messages
    = [placeholderMsg "assistant-stream-0" 0,
       { id := "10", role := "assistant", content := "Error: boom", timestamp := 9,
         isStreaming := false, memoryCommit := none, agent := none, mtype := none }]
    ∧ (wsErrorEvent
        { messages := [placeholderMsg "assistant-stream-0" 0],
          streamingMessageId := some "assistant-stream-0", hasReceivedChunk := false,
          consentGranted := false, pendingCommand := none, isTyping := true }
        (some "boom") 9).streamingMessageId = some "assistant-stream-0" := by
  decide

/-- C9 (amended): an error-carrying chunk event replaces the registered
streaming target with an error display string and clears its streaming
flag (or seeds a fresh non-streaming error message when no target is
registered) and resets the correlation refs; an `error`-typed message
instead always appends a fresh non-streaming assistant error message and
leaves the existing messages and the streaming refs untouched. -/
theorem error_events_behaviour :
    (∀ (pre : List Message) (m : Message) (s ch : String) (d : Bool)
        (mc : Option String) (nowE : Nat) (hc cg ty : Bool) (pc : Option String),
      hasId pre m.id = false → (s == "") = false →
      speakResponseChunk
        { messages := pre ++ [m], streamingMessageId := some m.id,
          hasReceivedChunk := hc, consentGranted := cg, pendingCommand := pc,
          isTyping := ty }
        { error := some s, chunk := ch, done := d, memoryCommit := mc } nowE
      = { messages := pre ++ [{ m with content := "Error: " ++ s, isStreaming := false, memoryCommit := mc, agent := some "Orchestrator" }],
          streamingMessageId := none, hasReceivedChunk := false,
          consentGranted := cg, pendingCommand := pc, isTyping := false })
    ∧ (∀ (st : AppState) (s ch : String) (d : Bool) (mc : Option String) (nowE : Nat),
      st.streamingMessageId = none → (s == "") = false →
      hasId st.messages ("assistant-" ++ toString nowE) = false →
      speakResponseChunk st
        { error := some s, chunk := ch, done := d, memoryCommit := mc } nowE
      = { st with
          messages := st.messages ++ [{ id := "assistant-" ++ toString nowE, role := "assistant", content := "Error: " ++ s, timestamp := nowE, isStreaming := false, memoryCommit := mc, agent := some "Orchestrator", mtype := none }],
          streamingMessageId := none, hasReceivedChunk := false, isTyping := false })
    ∧ (∀ (st : AppState) (s : String) (nowE : Nat), (s == "") = false →
      wsErrorEvent st (some s) nowE
      = { st with
          messages := st.messages ++ [{ id := toString (nowE + 1), role := "assistant", content := "Error: " ++ s, timestamp := nowE, isStreaming := false, memoryCommit := none, agent := none, mtype := none }],
          isTyping := false }) := by
  refine ⟨?_, ?_, ?_⟩
  · intro pre m s ch d mc nowE hc cg ty pc hfresh hs
    have hhas : hasId (pre ++ [m]) m.id = true := hasId_append_self pre m
    simp only [speakResponseChunk, errTruthy, Option.getD_some, hs,
      Bool.not_false, if_true, hhas]
    simp
    exact map_id_of_fresh pre m.id _ hfresh
  · intro st s ch d mc nowE hnone hs hfreshTarget
    simp only [speakResponseChunk, errTruthy, Option.getD_some, hs,
      Bool.not_false, if_true, hnone, Option.getD_none, hfreshTarget,
      Bool.false_eq_true, if_false]
  · intro st s nowE hs
    simp [wsErrorEvent, hs]

/-- C9 amended witness: the error chunk `"boom"` replaces the pending
placeholder; with no session it seeds a fresh error message; the
`error`-typed event appends one. -/
theorem error_events_behaviour_witness :
    hasId [] (placeholderMsg "assistant-stream-0" 0).id = false
    ∧ (("boom" == "") = false)
    ∧ speakResponseChunk
        { messages := [placeholderMsg "assistant-stream-0" 0],
          streamingMessageId := some (placeholderMsg "assistant-stream-0" 0).id,
          hasReceivedChunk := false, consentGranted := false, pendingCommand := none,
          isTyping := true }
        { error := some "boom", chunk := "", done := true, memoryCommit := none } 9
      = { messages := [{ placeholderMsg "assistant-stream-0" 0 with content := "Error: boom", isStreaming := false, memoryCommit := none, agent := some "Orchestrator" }],
          streamingMessageId := none, hasReceivedChunk := false,
          consentGranted := false, pendingCommand := none, isTyping := false } := by
  exact ⟨by decide, by decide,
    error_events_behaviour.1 [] (placeholderMsg "assistant-stream-0" 0) "boom" ""
      true none 9 false false true none (by decide) (by decide)⟩

/-- C10 counterexample: a terminal (`done=true`) non-error chunk arriving
with no active streaming session seeds a finalized assistant message, but
its id is not left registered as the active streaming target: the
correlation ref is null after handling, not the new message id. -/
theorem done_chunk_without_session_not_registered :
    (speakResponseChunk initState
      { error := none, chunk := "hi", done := true, memoryCommit := none } 5).messages
    = [{ id := "assistant-5", role := "assistant", content := "hi", timestamp := 5,
         isStreaming := false, memoryCommit := none, agent := some "Orchestrator",
         mtype := none }]
    ∧ (speakResponseChunk initState
        { error := none, chunk := "hi", done := true, memoryCommit := none } 5).streamingMessageId
      = none := by
  decide

/-- C10 (amended): a non-error chunk arriving with no active streaming
session seeds a fresh assistant message carrying the chunk text with the
streaming flag set iff `done` is false, appends it to the conversation,
and, when `done` is false, registers its id as the active streaming
target; when `done` is true the correlation refs are reset instead. -/
theorem chunk_without_session_seeds (st : AppState) (e : ChunkEvent) (nowE : Nat)
    (hnone : st.streamingMessageId = none) (herr : errTruthy e.error = false)
    (hfreshTarget : hasId st.messages ("assistant-" ++ toString nowE) = false) :
    (speakResponseChunk st e nowE).messages
      = st.messages ++ [{ id := "assistant-" ++ toString nowE, role := "assistant", content := e.chunk, timestamp := nowE, isStreaming := !e.done, memoryCommit := e.memoryCommit, agent := some "Orchestrator", mtype := none }]
    ∧ (e.done = false →
        (speakResponseChunk st e nowE).streamingMessageId
          = some ("assistant-" ++ toString nowE))
    ∧ (e.done = true → (speakResponseChunk st e nowE).streamingMessageId = none) := by
  cases hd : e.done with
  | false =>
    refine ⟨?_, fun _ => ?_, fun h => absurd h (by simp)⟩ <;>
      simp only [speakResponseChunk, herr, Bool.false_eq_true, if_false, hnone,
        Option.getD_none, hfreshTarget, hd]
  | true =>
    refine ⟨?_, fun h => absurd h (by simp), fun _ => ?_⟩ <;>
      simp only [speakResponseChunk, herr, Bool.false_eq_true, if_false, hnone,
        Option.getD_none, hfreshTarget, hd, if_true]

/-- C10 amended witness: a first chunk `"hi"` with `done=false` and no
session seeds a streaming message and registers it. -/
theorem chunk_without_session_seeds_witness :
    initState.streamingMessageId = none
    ∧ errTruthy (none : Option String) = false
    ∧ hasId initState.messages ("assistant-" ++ toString 5) = false
    ∧ ((speakResponseChunk initState
          { error := none, chunk := "hi", done := false, memoryCommit := none } 5).messages
        = initState.messages ++ [{ id := "assistant-" ++ toString 5, role := "assistant", content := "hi", timestamp := 5, isStreaming := !false, memoryCommit := none, agent := some "Orchestrator", mtype := none }]
      ∧ (false = false →
          (speakResponseChunk initState
            { error := none, chunk := "hi", done := false, memoryCommit := none } 5).streamingMessageId
          = some ("assistant-" ++ toString 5))
      ∧ (false = true →
          (speakResponseChunk initState
            { error := none, chunk := "hi", done := false, memoryCommit := none } 5).streamingMessageId
          = none)) := by
  exact ⟨by decide, by decide, by decide,
    chunk_without_session_seeds initState
      { error := none, chunk := "hi", done := false, memoryCommit := none } 5
      (by decide) (by decide) (by decide)⟩

/-- C2 counterexample: submitting the privileged command
`"system foo bar"` with `consentGranted=false` and the socket connected
does not defer the send: nothing is stored in the pending slot and no
grant request is transmitted; instead the command leaves immediately over
the HTTP command endpoint, because the fast-path return precedes the
consent gate, which is unreachable for `system `-prefixed text. -/
theorem privileged_command_not_deferred :
    (handleSendMessage initState true true "system foo bar" 0).outbound
      = [Outbound.httpCommand "system foo bar"]
    ∧ (handleSendMessage initState true true "system foo bar" 0).state.pendingCommand
      = none := by
  decide

/-- C2 (amended): a privileged (`system `-prefixed) command that is not
fully handled locally is transmitted immediately over the HTTP command
endpoint with the pending slot untouched (the fast-path return precedes
the consent gate); independently, the consent-release half holds: a
`system_response` with `consent_granted=true` arriving while the pending
slot is non-null transmits exactly the queued command over the socket and
clears the slot. -/
theorem privileged_fast_path_and_consent_release :
    (∀ (st : AppState) (connected sendOk : Bool) (input : String) (now : Nat),
      (jsTrim input == "") = false → st.isTyping = false →
      (parseChatCommand input = ChatCommandResult.passThrough
        ∨ ∃ c a l, parseChatCommand input = ChatCommandResult.handled (some c) a l) →
      jsStartsWith (jsToLower (jsTrim (postParseText input))) "system " = true →
      (handleSendMessage st connected sendOk input now).outbound
          = [Outbound.httpCommand (postParseText input)]
        ∧ (handleSendMessage st connected sendOk input now).state.pendingCommand
          = st.pendingCommand)
    ∧ (∀ (st : AppState) (cmd : String), st.pendingCommand = some cmd →
      systemResponse st { consent_granted := some true }
        = ({ st with consentGranted := true, pendingCommand := none },
           [Outbound.wsCommand cmd])) := by
  constructor
  · intro st connected sendOk input now hne hty hparse hsys
    have hfast : isFastPathCommand (jsToLower (jsTrim (postParseText input))) = true := by
      simp [isFastPathCommand, hsys]
    rcases hparse with hp | ⟨c, a, l, hp⟩
    · simp only [postParseText, hp] at hsys hfast
      simp only [handleSendMessage, hp, hne, hty, Bool.or_self, Bool.false_eq_true,
        if_false, Option.getD_none, Option.isNone_none, Bool.false_and, hfast,
        if_true, postParseText]
      simp
    · simp only [postParseText, hp, Option.getD_some] at hsys hfast
      simp only [handleSendMessage, hp, hne, hty, Bool.or_self, Bool.false_eq_true,
        if_false, Option.getD_some, Option.isNone_some, Bool.and_false, hfast,
        if_true, postParseText]
      simp
  · intro st cmd hpend
    simp [systemResponse, hpend]

/-- C2 amended witness: `"system foo bar"` goes over HTTP with the slot
untouched, and a queued `"system shell ls"` is released by a positive
`system_response`. -/
theorem privileged_fast_path_and_consent_release_witness :
    ((jsTrim "system foo bar" == "") = false)
    ∧ ((handleSendMessage initState true true "system foo bar" 0).outbound
          = [Outbound.httpCommand (postParseText "system foo bar")]
        ∧ (handleSendMessage initState true true "system foo bar" 0).state.pendingCommand
          = initState.pendingCommand)
    ∧ systemResponse
        { messages := [], streamingMessageId := none, hasReceivedChunk := false,
          consentGranted := false, pendingCommand := some "system shell ls",
          isTyping := false }
        { consent_granted := some true }
      = ({ messages := [], streamingMessageId := none, hasReceivedChunk := false,
           consentGranted := true, pendingCommand := none, isTyping := false },
         [Outbound.wsCommand "system shell ls"]) := by
  refine ⟨by decide, ?_, ?_⟩
  · exact privileged_fast_path_and_consent_release.1 initState true true
      "system foo bar" 0 (by decide) (by decide) (Or.inl (by decide)) (by decide)
  · exact privileged_fast_path_and_consent_release.2
      { messages := [], streamingMessageId := none, hasReceivedChunk := false,
        consentGranted := false, pendingCommand := some "system shell ls",
        isTyping := false }
      "system shell ls" rfl

/-- C3 counterexample: the input `"system grant"` has post-parse text
starting with the fast-path prefix `system `, yet with the socket
connected its dispatch is a `system` message over the socket and nothing
over HTTP: the parser handles it as a local command with an attached
socket system action before the fast-path HTTP routing is reached. -/
theorem system_grant_goes_over_socket :
    jsStartsWith (jsToLower (jsTrim (postParseText "system grant"))) "system " = true
    ∧ (handleSendMessage initState true true "system grant" 0).outbound
      = [Outbound.wsSystem SysAction.grant] := by
  decide

/-- C3 (amended): for every input that is not fully handled locally (the
parser passes it through or rewrites it to a backend command) whose
dispatched text, trimmed and lowercased, starts with one of the fast-path
prefixes, the dispatch is exactly one HTTP command request — nothing is
sent over the socket — regardless of socket connectivity or send
success. -/
theorem fast_path_routes_http (st : AppState) (connected sendOk : Bool)
    (input : String) (now : Nat)
    (hne : (jsTrim input == "") = false) (hty : st.isTyping = false)
    (hparse : parseChatCommand input = ChatCommandResult.passThrough
      ∨ ∃ c a l, parseChatCommand input = ChatCommandResult.handled (some c) a l)
    (hfast : isFastPathCommand (jsToLower (jsTrim (postParseText input))) = true) :
    (handleSendMessage st connected sendOk input now).outbound
      = [Outbound.httpCommand (postParseText input)] := by
  rcases hparse with hp | ⟨c, a, l, hp⟩
  · simp only [postParseText, hp] at hfast
    simp only [handleSendMessage, hp, hne, hty, Bool.or_self, Bool.false_eq_true,
      if_false, Option.getD_none, Option.isNone_none, Bool.false_and, hfast,
      if_true, postParseText]
  · simp only [postParseText, hp, Option.getD_some] at hfast
    simp only [handleSendMessage, hp, hne, hty, Bool.or_self, Bool.false_eq_true,
      if_false, Option.getD_some, Option.isNone_some, Bool.and_false, hfast,
      if_true, postParseText]

/-- C3 amended witness: `"skills list"` is dispatched over HTTP even with
the socket disconnected. -/
theorem fast_path_routes_http_witness :
    ((jsTrim "skills list" == "") = false)
    ∧ isFastPathCommand (jsToLower (jsTrim (postParseText "skills list"))) = true
    ∧ (handleSendMessage initState false true "skills list" 0).outbound
      = [Outbound.httpCommand (postParseText "skills list")] := by
  exact ⟨by decide, by decide,
    fast_path_routes_http initState false true "skills list" 0 (by decide)
      (by decide) (Or.inl (by decide)) (by decide)⟩

/-- C4 counterexample: sending `"system browser status"` with the socket
connected and no prior consent does not withhold the command: no
`system` grant message is sent at all, and the command itself is
transmitted immediately over the HTTP command endpoint. -/
theorem browser_status_not_withheld :
    (handleSendMessage initState true true "system browser status" 0).outbound
      = [Outbound.httpCommand "system browser status"]
    ∧ (handleSendMessage initState true true "system browser status" 0).state.pendingCommand
      = none := by
  decide

/-- C4 (amended): sending `"system browser status"` with the socket
connected and no prior consent dispatches exactly one HTTP command
request carrying the command; nothing is sent over the socket, no grant
is requested, and the consent state (flag and pending slot) is
unchanged. -/
theorem browser_status_http_only (msgs : List Message) (ref : Option String)
    (hc sendOk : Bool) (now : Nat) :
    handleSendMessage
      { messages := msgs, streamingMessageId := ref, hasReceivedChunk := hc,
        consentGranted := false, pendingCommand := none, isTyping := false }
      true sendOk "system browser status" now
    = { state :=
          { messages := msgs ++ [{ id := toString now, role := "user", content := "system browser status", timestamp := now, isStreaming := false, memoryCommit := none, agent := none, mtype := some "command" }],
            streamingMessageId := ref, hasReceivedChunk := hc,
            consentGranted := false, pendingCommand := none, isTyping := true },
        outbound := [Outbound.httpCommand "system browser status"],
        timerTarget := none } := by
  have hp : parseChatCommand "system browser status"
      = ChatCommandResult.handled (some "system browser status") none none := by decide
  have h1 : (jsTrim "system browser status" == "") = false := by decide
  have h2 : isFastPathCommand (jsToLower (jsTrim "system browser status")) = true := by
    decide
  simp only [handleSendMessage, hp, h1, Bool.or_self, Bool.false_eq_true, if_false,
    Option.getD_some, Option.isSome_some, Bool.true_or, Option.isNone_some,
    Bool.and_false, h2, if_true]

end PagiTwin
